import Mathlib

/-!
Shallow embedding of the glerminal crate's core: the font-atlas loader
(src/font.rs), the viewport/display state (src/display.rs) and the terminal
render orchestration plus frame counter (src/terminal.rs).

Modelling conventions: f32 values are modelled as exact rationals (the order
and range facts proved here are preserved by the monotone f32 rounding of the
source's divisions); u32 as Nat; i32 as Int (the source values are tiny, far
from any overflow); a Rust panic is Option.none or Except.error; external
collaborators (the sfl description parser, the png decoder, the file system,
the window event loop) enter as parameters or as input data; the HashMap of
glyphs is an association list with overwrite-on-insert semantics; calls into
the graphics backend are recorded as an explicit trace of RenderCall values.
-/

namespace Glerminal

/-- Color type of a decoded png image (the `png` crate's `ColorType`). -/
inductive ColorType
  | Grayscale
  | RGB
  | Indexed
  | GrayscaleAlpha
  | RGBA
deriving DecidableEq, Repr

/-- Decoded png output as the loader consumes it in
`Font::load_with_bmfont_and_image_read`: the `read_info` dimensions and color
type, plus the pixel buffer filled by `next_frame`. -/
structure PngInfo where
  width : Nat
  height : Nat
  color_type : ColorType
  buffer : List Nat
deriving DecidableEq, Repr

/-- One glyph record of the parsed bitmap-font description (the external
`sfl_parser` crate's glyph record: id, atlas x/y/width/height, offsets). -/
structure BMFontChar where
  id : Int
  x : Int
  y : Int
  width : Int
  height : Int
  xoffset : Int
  yoffset : Int
deriving DecidableEq, Repr

/-- The image-path-independent part of a parsed font description: what the
external sfl parser extracts from the description text alone, including the
atlas image file name declared inside the description. -/
structure BMFontData where
  font_name : String
  image_name : String
  line_height : Nat
  size : Nat
  chars : List (Nat × BMFontChar)
deriving DecidableEq, Repr

/-- The parsed description as the loader consumes it (`sfl_parser::BMFont`):
the parsed data plus a resolved atlas image path. -/
structure BMFont where
  font_name : String
  image_path : String
  line_height : Nat
  size : Nat
  chars : List (Nat × BMFontChar)
deriving DecidableEq, Repr

/-- `CharacterData` of src/font.rs: data of a single character in a Font. -/
structure CharacterData where
  id : Int
  x1 : ℚ
  x2 : ℚ
  y1 : ℚ
  y2 : ℚ
  width : Int
  height : Int
  x_off : Int
  y_off : Int
deriving DecidableEq, Repr

/-- `Font` of src/font.rs. -/
structure Font where
  name : String
  image_buffer : List Nat
  width : Nat
  height : Nat
  line_height : Nat
  size : Nat
  min_offset_y : Int
  characters : List (Nat × CharacterData)
deriving DecidableEq, Repr

/-- The distinct hard-failure exits of the loading code paths in src/font.rs
(each is a panic in the source). -/
inductive LoadError
  | assetMissing
  | formatError (msg : String)
  | colorTypeNotRGBA
  | imageDeformed
deriving DecidableEq, Repr

/-- `HashMap::insert` on the association-list model: overwrite the entry with
the given key if present, append otherwise. -/
def insertAssoc (k : Nat) (v : CharacterData) :
    List (Nat × CharacterData) → List (Nat × CharacterData)
  | [] => [(k, v)]
  | (k', v') :: rest =>
    if k = k' then (k, v) :: rest else (k', v') :: insertAssoc k v rest

/-- `HashMap::get` on the association-list model. -/
def lookupAssoc (k : Nat) : List (Nat × CharacterData) → Option CharacterData
  | [] => none
  | (k', v) :: rest => if k = k' then some v else lookupAssoc k rest

/-- The per-glyph body of the loader loop in
`Font::load_with_bmfont_and_image_read` (src/font.rs lines 133-154): the UV
rectangle obtained by dividing the pixel-space bounds by the atlas
dimensions, together with the copied metrics. -/
def charDataOf (wf hf : ℚ) (value : BMFontChar) : CharacterData :=
  { id := value.id
    x1 := (value.x : ℚ) / wf
    x2 := ((value.x : ℚ) + (value.width : ℚ)) / wf
    y1 := (value.y : ℚ) / hf
    y2 := ((value.y : ℚ) + (value.height : ℚ)) / hf
    width := value.width
    height := value.height
    x_off := value.xoffset
    y_off := value.yoffset }

/-- One iteration of the loader loop: update the running minimum y-offset
(`if value.yoffset < min_off_y`) and insert the glyph under its key truncated
to a byte (`*key as u8`, i.e. mod 256). -/
def loadStep (wf hf : ℚ) (acc : Int × List (Nat × CharacterData))
    (kv : Nat × BMFontChar) : Int × List (Nat × CharacterData) :=
  ((if kv.2.yoffset < acc.1 then kv.2.yoffset else acc.1),
   insertAssoc (kv.1 % 256) (charDataOf wf hf kv.2) acc.2)

/-- `Font::load_with_bmfont_and_image_read` after image decoding (src/font.rs
lines 111-167): reject a non-RGBA color type, reject a pixel buffer whose
length is not width*height*4, then fold the glyph records starting from the
sentinel minimum 100000 and the empty map. -/
def loadWithInfo (bm : BMFont) (info : PngInfo) : Except LoadError Font :=
  if info.color_type ≠ ColorType.RGBA then
    Except.error LoadError.colorTypeNotRGBA
  else if info.buffer.length ≠ info.width * info.height * 4 then
    Except.error LoadError.imageDeformed
  else
    let acc := bm.chars.foldl
      (loadStep (info.width : ℚ) (info.height : ℚ)) (100000, [])
    Except.ok
      { name := bm.font_name
        image_buffer := info.buffer
        width := info.width
        height := info.height
        line_height := bm.line_height
        size := bm.size
        min_offset_y := acc.1
        characters := acc.2 }

/-- `Font::load_with_bmfont_and_image_read` including the png decode step;
`decode` abstracts the external png crate (a decode failure is the source's
unwrap panic, surfaced as a format error). -/
def loadWithDecode (decode : List Nat → Except String PngInfo) (bm : BMFont)
    (bytes : List Nat) : Except LoadError Font :=
  match decode bytes with
  | Except.error e => Except.error (LoadError.formatError e)
  | Except.ok info => loadWithInfo bm info

/-- Modelled from the spec: `BMFont::from_path` of the external `sfl_parser`
collaborator (§6) parses the description text and resolves the atlas path
declared inside the description relative to the description's own path;
`parse` and `resolve` abstract those two steps. -/
def bmfontFromPath (parse : String → Except String BMFontData)
    (resolve : String → String → String) (contents : String)
    (fnt_path : String) : Except String BMFont :=
  match parse contents with
  | Except.error e => Except.error e
  | Except.ok d =>
    Except.ok
      { font_name := d.font_name
        image_path := resolve fnt_path d.image_name
        line_height := d.line_height
        size := d.size
        chars := d.chars }

/-- Modelled from the spec: `BMFont::from_loaded` of the external
`sfl_parser` collaborator (§6) parses the given description text and takes
the image path verbatim from its second argument. -/
def bmfontFromLoaded (parse : String → Except String BMFontData)
    (contents : String) (image_path : String) : Except String BMFont :=
  match parse contents with
  | Except.error e => Except.error e
  | Except.ok d =>
    Except.ok
      { font_name := d.font_name
        image_path := image_path
        line_height := d.line_height
        size := d.size
        chars := d.chars }

/-- `Font::load` (src/font.rs lines 77-91): check the description file
exists, parse it from its path, open the resolved atlas image file, decode
and build. `fsText`/`fsBin` model the file system. -/
def Font.load (parse : String → Except String BMFontData)
    (resolve : String → String → String)
    (decode : List Nat → Except String PngInfo)
    (fsText : String → Option String) (fsBin : String → Option (List Nat))
    (fnt_path : String) : Except LoadError Font :=
  match fsText fnt_path with
  | none => Except.error LoadError.assetMissing
  | some contents =>
    match bmfontFromPath parse resolve contents fnt_path with
    | Except.error e => Except.error (LoadError.formatError e)
    | Except.ok bm =>
      match fsBin bm.image_path with
      | none => Except.error LoadError.assetMissing
      | some bytes => loadWithDecode decode bm bytes

/-- `Font::load_raw` (src/font.rs lines 101-109): parse the given description
text with the placeholder image path "image.png", then decode the given atlas
bytes and build. -/
def Font.load_raw (parse : String → Except String BMFontData)
    (decode : List Nat → Except String PngInfo) (sfl_content : String)
    (bytes : List Nat) : Except LoadError Font :=
  match bmfontFromLoaded parse sfl_content "image.png" with
  | Except.error e => Except.error (LoadError.formatError e)
  | Except.ok bm => loadWithDecode decode bm bytes

/-- `Font::get_character` (src/font.rs lines 174-181): truncate the char's
code point to a byte (`character as u8`) and look it up. -/
def Font.get_character (f : Font) (character : Char) :
    Except String CharacterData :=
  let character_code := character.toNat % 256
  match lookupAssoc character_code f.characters with
  | some character_data => Except.ok character_data
  | none =>
    Except.error ("Character not found: " ++ toString character_code)

/-- Modelled from the spec: `renderer::create_proj_matrix` lives in
src/renderer.rs, which is not among the provided sources; the spec (§4.2)
only requires an orthographic-style letterbox scaling that preserves the
target aspect ratio inside the window. The two diagonal scale entries
suffice to represent such a matrix. Every theorem below that involves this
definition holds for an arbitrary body. -/
structure Matrix4 where
  sx : ℚ
  sy : ℚ
deriving DecidableEq, Repr

/-- Modelled from the spec: letterbox projection for window dimensions
`dims` and target aspect ratio `aspect_ratio` (spec §4.2). -/
def create_proj_matrix (dims : ℚ × ℚ) (aspect_ratio : ℚ) : Matrix4 :=
  let a := dims.1 / dims.2
  if a ≤ aspect_ratio then ⟨1, a / aspect_ratio⟩ else ⟨aspect_ratio / a, 1⟩

/-- Modelled from the spec: the graphics-backend collaborator interface of
§6 ("clear frame", "set viewport(width,height)", "issue draw call(program,
projection matrix, elapsed time, mesh)"); src/renderer.rs is not among the
provided sources, so backend calls are recorded as trace elements. -/
inductive RenderCall
  | updateViewport (width height : Nat)
  | clear
  | draw (program : Nat) (matrix : Matrix4) (time_ns : Nat) (mesh : Nat)
deriving DecidableEq, Repr

/-- The state of `Display` (src/display.rs) relevant to the viewport: window
dimensions, target aspect ratio and the cached projection matrix. -/
structure DisplayState where
  width : Nat
  height : Nat
  aspect_ratio : ℚ
  proj_matrix : Matrix4
deriving DecidableEq, Repr

/-- `Display::update_view` (src/display.rs lines 143-149): recompute the
projection matrix from the current dimensions and aspect ratio, and call
`renderer::update_viewport` with the current dimensions. -/
def DisplayState.update_view (s : DisplayState) :
    DisplayState × List RenderCall :=
  ({ s with proj_matrix :=
      create_proj_matrix ((s.width : ℚ), (s.height : ℚ)) s.aspect_ratio },
   [RenderCall.updateViewport s.width s.height])

/-- `Display::set_aspect_ratio` (src/display.rs lines 131-134): store the new
ratio, then `update_view`. -/
def DisplayState.set_aspect_ratio (s : DisplayState) (aspect_ratio : ℚ) :
    DisplayState × List RenderCall :=
  DisplayState.update_view { s with aspect_ratio := aspect_ratio }

/-- The resize branch of `Display::refresh` (src/display.rs lines 106-110):
store the new dimensions, then `update_view`. -/
def DisplayState.set_window_size (s : DisplayState) (width height : Nat) :
    DisplayState × List RenderCall :=
  DisplayState.update_view { s with width := width, height := height }

/-- `Display::new` (src/display.rs lines 23-72): initial aspect ratio is
width/height and the projection matrix is computed from it. -/
def DisplayState.new (width height : Nat) : DisplayState :=
  { width := width
    height := height
    aspect_ratio := (width : ℚ) / (height : ℚ)
    proj_matrix := create_proj_matrix ((width : ℚ), (height : ℚ))
      ((width : ℚ) / (height : ℚ)) }

/-- The two mutating entry points into the viewport state. -/
inductive DisplayOp
  | setWindowSize (width height : Nat)
  | setAspectRatio (ratio : ℚ)
deriving DecidableEq, Repr

/-- Apply one viewport mutation (discarding the backend trace). -/
def DisplayState.applyOp (s : DisplayState) : DisplayOp → DisplayState
  | DisplayOp.setWindowSize w h => (s.set_window_size w h).1
  | DisplayOp.setAspectRatio r => (s.set_aspect_ratio r).1

/-- Apply a sequence of viewport mutations. -/
def DisplayState.applyOps (s : DisplayState) (ops : List DisplayOp) :
    DisplayState :=
  ops.foldl DisplayState.applyOp s

/-- The viewport invariant: the cached projection matrix is the one computed
from the currently stored (width, height, aspect_ratio) triple. -/
def DisplayState.consistent (s : DisplayState) : Prop :=
  s.proj_matrix =
    create_proj_matrix ((s.width : ℚ), (s.height : ℚ)) s.aspect_ratio

/-- A window event as polled by `Display::refresh` (src/display.rs lines
84-104); keyboard events only feed the out-of-scope input collaborator. -/
inductive WindowEvent
  | closed
  | resized (width height : Nat)
  | keyboardInput (keycode : Nat) (pressed : Bool)
deriving DecidableEq, Repr

/-- Whether an event is the window-close event. -/
def WindowEvent.isClosed : WindowEvent → Bool
  | WindowEvent.closed => true
  | _ => false

/-- `Display::refresh` (src/display.rs lines 74-113): poll the given pending
events; any close event makes the returned flag false; the last resize event
(if any) is applied through the resize branch after the poll loop. -/
def DisplayState.refresh (s : DisplayState) (events : List WindowEvent) :
    DisplayState × Bool × List RenderCall :=
  let running := !(events.any WindowEvent.isClosed)
  let dims := events.foldl
    (fun acc e =>
      match e with
      | WindowEvent.resized w h => some (w, h)
      | _ => acc)
    (none : Option (Nat × Nat))
  match dims with
  | some (w, h) =>
    let r := s.set_window_size w h
    (r.1, running, r.2)
  | none => (s, running, [])

/-- `FrameCounter` (src/terminal.rs lines 376-404). Times are nanoseconds;
`fps` is `frames as f32`, exact for the frame counts involved. -/
structure FrameCounter where
  frames : Nat
  last_check : Nat
  fps : Nat
deriving DecidableEq, Repr

/-- `FrameCounter::new` at the current time `now`. -/
def FrameCounter.new (now : Nat) : FrameCounter :=
  { frames := 0, last_check := now, fps := 0 }

/-- `FrameCounter::update` at the current time `now`: increment the tally;
if strictly more than one second elapsed since `last_check`, commit the tally
as `fps`, reset it and advance the checkpoint. A `now` earlier than
`last_check` is the source's `duration_since(..).unwrap()` panic. -/
def FrameCounter.update (c : FrameCounter) (now : Nat) : Option FrameCounter :=
  let frames := c.frames + 1
  if now < c.last_check then none
  else if 1000000000 < now - c.last_check then
    some { frames := 0, last_check := now, fps := frames }
  else
    some { frames := frames, last_check := c.last_check, fps := c.fps }

/-- `FrameCounter::get_fps`. -/
def FrameCounter.get_fps (c : FrameCounter) : Nat :=
  c.fps

/-- A sequence of `update` calls at the given times. -/
def FrameCounter.updates (c : FrameCounter) : List Nat → Option FrameCounter
  | [] => some c
  | t :: ts =>
    match c.update t with
    | none => none
    | some c' => FrameCounter.updates c' ts

/-- A draw mesh of the out-of-scope text-buffer collaborator, identified
opaquely. -/
structure Mesh where
  id : Nat
deriving DecidableEq, Repr

/-- The face of `TextBuffer` that src/terminal.rs consumes: an aspect ratio
and optionally-present foreground/background meshes. -/
structure TextBuffer where
  aspect_ratio : ℚ
  mesh : Option Mesh
  background_mesh : Option Mesh
deriving DecidableEq, Repr

/-- `Terminal` (src/terminal.rs lines 143-155). -/
structure Terminal where
  display : Option DisplayState
  program : Nat
  background_program : Nat
  debug_program : Nat
  debug : Bool
  running : Bool
  headless : Bool
  since_start : Nat
  frame_counter : FrameCounter
  text_buffer_aspect_ratio : Bool
deriving DecidableEq, Repr

/-- `Terminal::new` in the headless branch (src/terminal.rs lines 171-175,
190-202): no display, all three program handles are the sentinel 0. -/
def Terminal.newHeadless (now : Nat) (tbar : Bool) : Terminal :=
  { display := none
    program := 0
    background_program := 0
    debug_program := 0
    debug := false
    running := true
    headless := true
    since_start := now
    frame_counter := FrameCounter.new now
    text_buffer_aspect_ratio := tbar }

/-- `Terminal::new` in the windowed branch (src/terminal.rs lines 176-202):
a fresh display and three compiled program handles. -/
def Terminal.newWindowed (now width height : Nat)
    (program background_program debug_program : Nat) (tbar : Bool) :
    Terminal :=
  { display := some (DisplayState.new width height)
    program := program
    background_program := background_program
    debug_program := debug_program
    debug := false
    running := true
    headless := false
    since_start := now
    frame_counter := FrameCounter.new now
    text_buffer_aspect_ratio := tbar }

/-- `Terminal::close` (src/terminal.rs lines 321-323). -/
def Terminal.close (t : Terminal) : Terminal :=
  { t with running := false }

/-- `Terminal::set_debug` (src/terminal.rs lines 206-211): a no-op on a
headless terminal. -/
def Terminal.set_debug (t : Terminal) (debug : Bool) : Terminal :=
  if !t.headless then { t with debug := debug } else t

/-- `Terminal::get_program` (src/terminal.rs lines 346-355): panics on a
headless terminal, otherwise selects by the debug flag. -/
def Terminal.get_program (t : Terminal) : Option Nat :=
  if t.headless then none
  else if !t.debug then some t.program
  else some t.debug_program

/-- `Terminal::get_background_program` (src/terminal.rs lines 357-366). -/
def Terminal.get_background_program (t : Terminal) : Option Nat :=
  if t.headless then none
  else if !t.debug then some t.background_program
  else some t.debug_program

/-- `Terminal::refresh`, the release variant (src/terminal.rs lines
233-243): advance the frame counter; with a display, poll it and report
`display.refresh() && running`; headless, report `running`. -/
def Terminal.refresh (t : Terminal) (now : Nat) (events : List WindowEvent) :
    Option (Terminal × Bool × List RenderCall) :=
  match t.frame_counter.update now with
  | none => none
  | some fc =>
    match t.display with
    | some display =>
      let r := display.refresh events
      some ({ t with frame_counter := fc, display := some r.1 },
        r.2.1 && t.running, r.2.2)
    | none => some ({ t with frame_counter := fc }, t.running, [])

/-- `Terminal::draw` (src/terminal.rs lines 253-277): with a display and both
meshes present, possibly retarget the aspect ratio from the buffer, clear,
then issue the background and foreground draw calls; otherwise do nothing. -/
def Terminal.draw (t : Terminal) (now : Nat) (tb : TextBuffer) :
    Option (Terminal × List RenderCall) :=
  match t.display, tb.mesh, tb.background_mesh with
  | some display, some mesh, some background_mesh =>
    let s :=
      if t.text_buffer_aspect_ratio ∧ tb.aspect_ratio ≠ display.aspect_ratio
      then display.set_aspect_ratio tb.aspect_ratio
      else (display, [])
    if now < t.since_start then none
    else
      match t.get_background_program, t.get_program with
      | some bg_program, some program =>
        some ({ t with display := some s.1 },
          s.2 ++ [RenderCall.clear,
            RenderCall.draw bg_program s.1.proj_matrix (now - t.since_start)
              background_mesh.id,
            RenderCall.draw program s.1.proj_matrix (now - t.since_start)
              mesh.id])
      | _, _ => none
  | _, _, _ => some (t, [])

/-- The loop body of `Terminal::draw_multiple` (src/terminal.rs lines
284-308): as `draw` but without the clear, which happens once before the
loop. -/
def Terminal.drawLoopBody (t : Terminal) (now : Nat) (tb : TextBuffer) :
    Option (Terminal × List RenderCall) :=
  match t.display, tb.mesh, tb.background_mesh with
  | some display, some mesh, some background_mesh =>
    let s :=
      if t.text_buffer_aspect_ratio ∧ tb.aspect_ratio ≠ display.aspect_ratio
      then display.set_aspect_ratio tb.aspect_ratio
      else (display, [])
    if now < t.since_start then none
    else
      match t.get_background_program, t.get_program with
      | some bg_program, some program =>
        some ({ t with display := some s.1 },
          s.2 ++ [RenderCall.draw bg_program s.1.proj_matrix
              (now - t.since_start) background_mesh.id,
            RenderCall.draw program s.1.proj_matrix (now - t.since_start)
              mesh.id])
      | _, _ => none
  | _, _, _ => some (t, [])

/-- The loop of `Terminal::draw_multiple`, threading the terminal state and
the accumulated backend trace. -/
def Terminal.drawMultipleGo (now : Nat) :
    Terminal → List RenderCall → List TextBuffer →
    Option (Terminal × List RenderCall)
  | t, acc, [] => some (t, acc)
  | t, acc, tb :: rest =>
    match t.drawLoopBody now tb with
    | none => none
    | some (t', calls) => Terminal.drawMultipleGo now t' (acc ++ calls) rest

/-- `Terminal::draw_multiple` (src/terminal.rs lines 282-309): one
unconditional clear, then the per-buffer loop. -/
def Terminal.draw_multiple (t : Terminal) (now : Nat)
    (tbs : List TextBuffer) : Option (Terminal × List RenderCall) :=
  Terminal.drawMultipleGo now t [RenderCall.clear] tbs

/-- The state-mutating operations of the terminal orchestrator. -/
inductive TerminalOp
  | close
  | refresh (now : Nat) (events : List WindowEvent)
  | setDebug (debug : Bool)
  | draw (now : Nat) (tb : TextBuffer)
  | drawMultiple (now : Nat) (tbs : List TextBuffer)
deriving Repr

/-- Apply one terminal operation, keeping only the resulting state. -/
def Terminal.step (t : Terminal) : TerminalOp → Option Terminal
  | TerminalOp.close => some t.close
  | TerminalOp.refresh now events =>
    (t.refresh now events).map (fun r => r.1)
  | TerminalOp.setDebug b => some (t.set_debug b)
  | TerminalOp.draw now tb => (t.draw now tb).map (fun r => r.1)
  | TerminalOp.drawMultiple now tbs =>
    (t.draw_multiple now tbs).map (fun r => r.1)

/-- A fallback font value used only to destructure loader results in closed
statements. -/
def emptyFont : Font :=
  { name := ""
    image_buffer := []
    width := 0
    height := 0
    line_height := 0
    size := 0
    min_offset_y := 100000
    characters := [] }

/-- Extract the font of a successful load, or the fallback. -/
def fontOfResult (r : Except LoadError Font) : Font :=
  match r with
  | Except.ok f => f
  | Except.error _ => emptyFont

/-- A description with a single glyph whose y-offset 200000 exceeds the
loader's sentinel minimum 100000. -/
def bmC3 : BMFont :=
  { font_name := "font"
    image_path := "image.png"
    line_height := 10
    size := 8
    chars := [(97, { id := 97, x := 0, y := 0, width := 1, height := 1,
                     xoffset := 0, yoffset := 200000 })] }

/-- A decoded 1x1 RGBA atlas. -/
def infoC3 : PngInfo :=
  { width := 1, height := 1, color_type := ColorType.RGBA
    buffer := List.replicate 4 0 }

/-- A description with a single glyph whose atlas rectangle (x 10, width 10)
lies outside the 5-pixel-wide atlas below. -/
def bmC5 : BMFont :=
  { font_name := "font"
    image_path := "image.png"
    line_height := 10
    size := 8
    chars := [(97, { id := 97, x := 10, y := 0, width := 10, height := 1,
                     xoffset := 0, yoffset := 0 })] }

/-- A decoded 5x5 RGBA atlas. -/
def infoC5 : PngInfo :=
  { width := 5, height := 5, color_type := ColorType.RGBA
    buffer := List.replicate 100 0 }

/-- A single glyph record keyed by code point 353 in the description below. -/
def aliasCharW : BMFontChar :=
  { id := 353, x := 0, y := 0, width := 1, height := 1, xoffset := 0,
    yoffset := 0 }

/-- A description whose single glyph is keyed by the code point 353, which
the loader truncates to the byte 97. -/
def bmAlias : BMFont :=
  { font_name := "font"
    image_path := "image.png"
    line_height := 10
    size := 8
    chars := [(353, aliasCharW)] }

/-- A decoded 2x2 RGBA atlas. -/
def infoAlias : PngInfo :=
  { width := 2, height := 2, color_type := ColorType.RGBA
    buffer := List.replicate 16 0 }

/-- The font loaded from `bmAlias`/`infoAlias`. -/
def fontAliasLoaded : Font :=
  fontOfResult (loadWithInfo bmAlias infoAlias)

/-- A text buffer with both meshes present. -/
def tbFull : TextBuffer :=
  { aspect_ratio := (16 : ℚ) / 9, mesh := some ⟨1⟩,
    background_mesh := some ⟨2⟩ }


/-- A trivial description parser used to instantiate the loader theorems at
concrete inputs. -/
def parseW : String → Except String BMFontData := fun _ =>
  Except.ok
    { font_name := "font"
      image_name := "image.png"
      line_height := 10
      size := 8
      chars := [] }

/-- A trivial image-path resolver for concrete instantiations. -/
def resolveW : String → String → String := fun _ image_name => image_name

/-- A trivial png decoder for concrete instantiations. -/
def decodeW : List Nat → Except String PngInfo := fun _ =>
  Except.ok infoAlias

/-- A one-file text file system for concrete instantiations. -/
def fsTextW : String → Option String := fun _ => some "desc"

/-- A one-file binary file system for concrete instantiations. -/
def fsBinW : String → Option (List Nat) := fun _ => some []

/-- A decoded 1x1 atlas in a non-RGBA color format. -/
def infoBadColor : PngInfo :=
  { width := 1, height := 1, color_type := ColorType.RGB, buffer := [] }

/-- A decoded RGBA atlas whose pixel buffer is empty, shorter than its
declared 1x1 dimensions require. -/
def infoBadLen : PngInfo :=
  { width := 1, height := 1, color_type := ColorType.RGBA, buffer := [] }


theorem mem_insertAssoc {k k' : Nat} {v d : CharacterData}
    {l : List (Nat × CharacterData)} (h : (k, d) ∈ insertAssoc k' v l) :
    (k = k' ∧ d = v) ∨ (k, d) ∈ l := by
  induction l with
  | nil =>
    simp [insertAssoc] at h
    exact Or.inl ⟨h.1, h.2⟩
  | cons a rest ih =>
    obtain ⟨ka, va⟩ := a
    simp only [insertAssoc] at h
    split at h
    · rcases List.mem_cons.mp h with h' | h'
      · exact Or.inl (by injection h' with h1 h2; exact ⟨h1, h2⟩)
      · exact Or.inr (List.mem_cons_of_mem _ h')
    · rcases List.mem_cons.mp h with h' | h'
      · exact Or.inr (List.mem_cons.mpr (Or.inl h'))
      · rcases ih h' with h'' | h''
        · exact Or.inl h''
        · exact Or.inr (List.mem_cons_of_mem _ h'')

theorem characters_foldl_mem {wf hf : ℚ} (l : List (Nat × BMFontChar)) :
    ∀ (acc : Int × List (Nat × CharacterData)) (k : Nat) (d : CharacterData),
      (k, d) ∈ (l.foldl (loadStep wf hf) acc).2 →
      (k, d) ∈ acc.2 ∨ ∃ kv ∈ l, k = kv.1 % 256 ∧ d = charDataOf wf hf kv.2 := by
  induction l with
  | nil => intro acc k d h; exact Or.inl h
  | cons a l ih =>
    intro acc k d h
    rw [List.foldl_cons] at h
    rcases ih (loadStep wf hf acc a) k d h with h' | h'
    · rcases mem_insertAssoc h' with h'' | h''
      · exact Or.inr ⟨a, List.mem_cons_self a l, h''⟩
      · exact Or.inl h''
    · obtain ⟨kv, hkv, hk⟩ := h'
      exact Or.inr ⟨kv, List.mem_cons_of_mem _ hkv, hk⟩

theorem min_foldl_fst {wf hf : ℚ} (l : List (Nat × BMFontChar)) :
    ∀ acc : Int × List (Nat × CharacterData),
      (l.foldl (loadStep wf hf) acc).1 =
        l.foldl (fun m kv => if kv.2.yoffset < m then kv.2.yoffset else m)
          acc.1 := by
  induction l with
  | nil => intro acc; rfl
  | cons a l ih =>
    intro acc
    rw [List.foldl_cons, List.foldl_cons, ih]
    rfl

theorem yoffMin_le_init (l : List (Nat × BMFontChar)) :
    ∀ m : Int,
      l.foldl (fun m kv => if kv.2.yoffset < m then kv.2.yoffset else m) m
        ≤ m := by
  induction l with
  | nil => intro m; exact le_refl m
  | cons a l ih =>
    intro m
    rw [List.foldl_cons]
    refine le_trans (ih _) ?_
    split <;> omega

theorem yoffMin_le_mem (l : List (Nat × BMFontChar)) :
    ∀ (m : Int) (kv : Nat × BMFontChar), kv ∈ l →
      l.foldl (fun m kv => if kv.2.yoffset < m then kv.2.yoffset else m) m
        ≤ kv.2.yoffset := by
  induction l with
  | nil => intro m kv h; exact absurd h (List.not_mem_nil kv)
  | cons a l ih =>
    intro m kv h
    rw [List.foldl_cons]
    rcases List.mem_cons.mp h with h' | h'
    · subst h'
      refine le_trans (yoffMin_le_init l _) ?_
      split <;> omega
    · exact ih _ kv h'

theorem yoffMin_eq_init_or_mem (l : List (Nat × BMFontChar)) :
    ∀ m : Int,
      l.foldl (fun m kv => if kv.2.yoffset < m then kv.2.yoffset else m) m
          = m ∨
        ∃ kv ∈ l,
          l.foldl (fun m kv => if kv.2.yoffset < m then kv.2.yoffset else m) m
            = kv.2.yoffset := by
  induction l with
  | nil => intro m; exact Or.inl rfl
  | cons a l ih =>
    intro m
    rw [List.foldl_cons]
    rcases ih (if a.2.yoffset < m then a.2.yoffset else m) with h | h
    · rw [h]
      split
      · exact Or.inr ⟨a, List.mem_cons_self a l, rfl⟩
      · exact Or.inl rfl
    · obtain ⟨kv, hkv, he⟩ := h
      exact Or.inr ⟨kv, List.mem_cons_of_mem _ hkv, he⟩

theorem loadWithInfo_ok_inv {bm : BMFont} {info : PngInfo} {f : Font}
    (h : loadWithInfo bm info = Except.ok f) :
    info.color_type = ColorType.RGBA ∧
    info.buffer.length = info.width * info.height * 4 ∧
    f = { name := bm.font_name
          image_buffer := info.buffer
          width := info.width
          height := info.height
          line_height := bm.line_height
          size := bm.size
          min_offset_y := (bm.chars.foldl
            (loadStep (info.width : ℚ) (info.height : ℚ)) (100000, [])).1
          characters := (bm.chars.foldl
            (loadStep (info.width : ℚ) (info.height : ℚ)) (100000, [])).2 } := by
  unfold loadWithInfo at h
  split at h
  · simp at h
  · split at h
    · simp at h
    · rename_i h1 h2
      rw [not_not] at h1
      refine ⟨h1, by omega, ?_⟩
      injection h with h3
      exact h3.symm


theorem applyOp_consistent (s : DisplayState) (op : DisplayOp) :
    (s.applyOp op).consistent := by
  cases op <;>
    simp [DisplayState.applyOp, DisplayState.set_window_size,
      DisplayState.set_aspect_ratio, DisplayState.update_view,
      DisplayState.consistent]

theorem applyOps_consistent (ops : List DisplayOp) :
    ∀ s : DisplayState, s.consistent → (s.applyOps ops).consistent := by
  induction ops with
  | nil => intro s h; exact h
  | cons op ops ih =>
    intro s h
    exact ih (s.applyOp op) (applyOp_consistent s op)

theorem set_debug_running (t : Terminal) (b : Bool) :
    (t.set_debug b).running = t.running := by
  unfold Terminal.set_debug
  split <;> rfl

theorem draw_none {t : Terminal} (hd : t.display = none) (now : Nat)
    (tb : TextBuffer) : t.draw now tb = some (t, []) := by
  rcases tb with ⟨ar, m, bgm⟩
  cases m <;> cases bgm <;> (unfold Terminal.draw; rw [hd])

theorem drawLoopBody_none {t : Terminal} (hd : t.display = none) (now : Nat)
    (tb : TextBuffer) : t.drawLoopBody now tb = some (t, []) := by
  rcases tb with ⟨ar, m, bgm⟩
  cases m <;> cases bgm <;> (unfold Terminal.drawLoopBody; rw [hd])

theorem drawMultipleGo_none {t : Terminal} (hd : t.display = none)
    (now : Nat) : ∀ (tbs : List TextBuffer) (acc : List RenderCall),
      Terminal.drawMultipleGo now t acc tbs = some (t, acc) := by
  intro tbs
  induction tbs with
  | nil => intro acc; rfl
  | cons tb rest ih =>
    intro acc
    unfold Terminal.drawMultipleGo
    rw [drawLoopBody_none hd now tb]
    show Terminal.drawMultipleGo now t (acc ++ []) rest = some (t, acc)
    rw [List.append_nil]
    exact ih acc

theorem draw_running {t : Terminal} {now : Nat} {tb : TextBuffer}
    {t' : Terminal} {calls : List RenderCall}
    (h : t.draw now tb = some (t', calls)) : t'.running = t.running := by
  rcases tb with ⟨ar, m, bgm⟩
  rcases hd : t.display with _ | dsp <;> cases m <;> cases bgm <;>
    (unfold Terminal.draw at h; rw [hd] at h; try dsimp only at h) <;>
    (repeat' split at h) <;>
    first
      | (simp only [Option.some.injEq, Prod.mk.injEq] at h
         obtain ⟨h1, h2⟩ := h
         subst h1
         rfl)
      | simp at h

theorem drawLoopBody_running {t : Terminal} {now : Nat} {tb : TextBuffer}
    {t' : Terminal} {calls : List RenderCall}
    (h : t.drawLoopBody now tb = some (t', calls)) :
    t'.running = t.running := by
  rcases tb with ⟨ar, m, bgm⟩
  rcases hd : t.display with _ | dsp <;> cases m <;> cases bgm <;>
    (unfold Terminal.drawLoopBody at h; rw [hd] at h; try dsimp only at h) <;>
    (repeat' split at h) <;>
    first
      | (simp only [Option.some.injEq, Prod.mk.injEq] at h
         obtain ⟨h1, h2⟩ := h
         subst h1
         rfl)
      | simp at h

theorem drawMultipleGo_running {now : Nat} :
    ∀ (tbs : List TextBuffer) (t : Terminal) (acc : List RenderCall)
      (t' : Terminal) (calls : List RenderCall),
      Terminal.drawMultipleGo now t acc tbs = some (t', calls) →
      t'.running = t.running := by
  intro tbs
  induction tbs with
  | nil =>
    intro t acc t' calls h
    simp only [Terminal.drawMultipleGo, Option.some.injEq,
      Prod.mk.injEq] at h
    obtain ⟨h1, h2⟩ := h
    subst h1
    rfl
  | cons tb rest ih =>
    intro t acc t' calls h
    unfold Terminal.drawMultipleGo at h
    cases hb : t.drawLoopBody now tb with
    | none => rw [hb] at h; exact absurd h (by simp)
    | some r =>
      obtain ⟨t1, calls1⟩ := r
      rw [hb] at h
      have h2 := ih t1 (acc ++ calls1) t' calls h
      rw [h2, drawLoopBody_running hb]

theorem refresh_inv {t : Terminal} {now : Nat} {events : List WindowEvent}
    {t' : Terminal} {b : Bool} {calls : List RenderCall}
    (h : t.refresh now events = some (t', b, calls)) :
    t'.running = t.running ∧ (t.running = false → b = false) := by
  unfold Terminal.refresh at h
  cases hu : t.frame_counter.update now with
  | none => rw [hu] at h; exact absurd h (by simp)
  | some fc =>
    rw [hu] at h
    cases hd : t.display with
    | some dsp =>
      rw [hd] at h
      simp only [Option.some.injEq, Prod.mk.injEq] at h
      obtain ⟨h1, h2, h3⟩ := h
      subst h1
      refine ⟨rfl, ?_⟩
      intro hr
      rw [← h2, hr, Bool.and_false]
    | none =>
      rw [hd] at h
      simp only [Option.some.injEq, Prod.mk.injEq] at h
      obtain ⟨h1, h2, h3⟩ := h
      subst h1
      exact ⟨rfl, fun hr => by rw [← h2, hr]⟩

theorem update_within {c : FrameCounter} {now : Nat}
    (h1 : c.last_check ≤ now) (h2 : now - c.last_check ≤ 1000000000) :
    c.update now = some
      { frames := c.frames + 1
        last_check := c.last_check
        fps := c.fps } := by
  simp only [FrameCounter.update]
  rw [if_neg (by omega), if_neg (by omega)]

theorem update_commit {c : FrameCounter} {now : Nat}
    (h : 1000000000 < now - c.last_check) :
    c.update now = some
      { frames := 0
        last_check := now
        fps := c.frames + 1 } := by
  simp only [FrameCounter.update]
  rw [if_neg (by omega), if_pos h]

theorem updates_within :
    ∀ (ts : List Nat) (c : FrameCounter),
      (∀ t ∈ ts, c.last_check ≤ t ∧ t - c.last_check ≤ 1000000000) →
      c.updates ts = some
        { frames := c.frames + ts.length
          last_check := c.last_check
          fps := c.fps } := by
  intro ts
  induction ts with
  | nil => intro c h; simp [FrameCounter.updates]
  | cons t ts ih =>
    intro c h
    have h0 := h t (List.mem_cons_self t ts)
    unfold FrameCounter.updates
    rw [update_within h0.1 h0.2]
    show FrameCounter.updates
      { frames := c.frames + 1
        last_check := c.last_check
        fps := c.fps } ts = _
    rw [ih { frames := c.frames + 1, last_check := c.last_check, fps := c.fps }
      (fun t' ht' => h t' (List.mem_cons_of_mem _ ht'))]
    simp only [Option.some.injEq, FrameCounter.mk.injEq, List.length_cons]
    exact ⟨by omega, trivial, trivial⟩


/-- C1 counterexample: on a headless terminal (display is none), `draw` with
a fully flushed text buffer succeeds as a silent no-op (no error, no backend
calls), and `draw_multiple` succeeds issuing only its unconditional clear —
contradicting the claim that every draw call fails with an
UnsupportedOperation-style loud failure. -/
theorem headless_draw_is_silent_noop_cex :
    Terminal.draw (Terminal.newHeadless 0 true) 5 tbFull =
      some (Terminal.newHeadless 0 true, []) ∧
    Terminal.draw_multiple (Terminal.newHeadless 0 true) 5 [tbFull] =
      some (Terminal.newHeadless 0 true, [RenderCall.clear]) :=
  ⟨rfl, rfl⟩

/-- C1 (amended): on every headless terminal, `draw` is a complete silent
no-op and `draw_multiple` silently issues only its unconditional frame
clear, while querying the current program or the background program fails
loudly (the source panics, modelled as none). -/
theorem headless_draw_noop_and_program_query_fails
    (t : Terminal) (now : Nat) (tb : TextBuffer) (tbs : List TextBuffer)
    (hh : t.headless = true) (hd : t.display = none) :
    t.draw now tb = some (t, []) ∧
    t.draw_multiple now tbs = some (t, [RenderCall.clear]) ∧
    t.get_program = none ∧
    t.get_background_program = none := by
  refine ⟨draw_none hd now tb, ?_, ?_, ?_⟩
  · unfold Terminal.draw_multiple
    exact drawMultipleGo_none hd now tbs [RenderCall.clear]
  · simp [Terminal.get_program, hh]
  · simp [Terminal.get_background_program, hh]

/-- C1 witness: the amended headless no-op contract at a concrete headless
terminal and concrete buffers. -/
theorem headless_draw_noop_and_program_query_fails_witness :
    Terminal.draw (Terminal.newHeadless 0 true) 7 tbFull =
      some (Terminal.newHeadless 0 true, []) ∧
    Terminal.draw_multiple (Terminal.newHeadless 0 true) 7 [tbFull, tbFull] =
      some (Terminal.newHeadless 0 true, [RenderCall.clear]) ∧
    (Terminal.newHeadless 0 true).get_program = none ∧
    (Terminal.newHeadless 0 true).get_background_program = none :=
  headless_draw_noop_and_program_query_fails (Terminal.newHeadless 0 true) 7
    tbFull [tbFull, tbFull] rfl rfl

/-- C2 counterexample: `set_aspect_ratio` does produce a viewport side
effect toward the graphics backend — its backend trace is exactly one
`update_viewport` call (with the unchanged window dimensions) —
contradicting the claim that only a window resize touches the backend
viewport. -/
theorem set_aspect_ratio_emits_viewport_cex :
    (DisplayState.set_aspect_ratio (DisplayState.new 1280 720)
        ((4 : ℚ)/3)).2 = [RenderCall.updateViewport 1280 720] ∧
    (DisplayState.set_aspect_ratio (DisplayState.new 1280 720)
        ((4 : ℚ)/3)).2 ≠ ([] : List RenderCall) :=
  ⟨rfl, by simp [DisplayState.set_aspect_ratio, DisplayState.update_view]⟩

/-- C2 (amended): `set_aspect_ratio` stores the new target ratio, leaves the
window dimensions unchanged, recomputes the projection matrix from the
last-set triple, and issues exactly one backend viewport update carrying the
unchanged window dimensions (the source's `update_view` always calls
`renderer::update_viewport`). -/
theorem set_aspect_ratio_updates_and_viewport_effect
    (s : DisplayState) (r : ℚ) :
    (s.set_aspect_ratio r).1.aspect_ratio = r ∧
    (s.set_aspect_ratio r).1.width = s.width ∧
    (s.set_aspect_ratio r).1.height = s.height ∧
    (s.set_aspect_ratio r).1.proj_matrix =
      create_proj_matrix ((s.width : ℚ), (s.height : ℚ)) r ∧
    (s.set_aspect_ratio r).2 = [RenderCall.updateViewport s.width s.height] :=
  ⟨rfl, rfl, rfl, rfl, rfl⟩

/-- C3 counterexample: loading a description whose only glyph has y-offset
200000 yields `min_offset_y = 100000` (the loader's sentinel initial value),
not the true minimum 200000 of the glyphs' y-offsets. -/
theorem min_offset_y_sentinel_cex :
    Except.map Font.min_offset_y (loadWithInfo bmC3 infoC3) =
      Except.ok (100000 : Int) ∧
    bmC3.chars.map (fun kv => kv.2.yoffset) = [(200000 : Int)] ∧
    (100000 : Int) ≠ 200000 :=
  ⟨rfl, rfl, by decide⟩

/-- C3 (amended): for every successfully loaded font, `min_offset_y` is the
minimum of the sentinel 100000 and all glyphs' y-offsets: it is at most
100000, is a lower bound on every glyph's y-offset, and is either the
sentinel or attained by some glyph. It equals the true minimum exactly when
some glyph's y-offset is at most 100000; with an empty glyph list or with
all y-offsets above 100000 it is the sentinel. -/
theorem min_offset_y_characterization (bm : BMFont) (info : PngInfo)
    (f : Font) (h : loadWithInfo bm info = Except.ok f) :
    f.min_offset_y ≤ 100000 ∧
    (∀ kv ∈ bm.chars, f.min_offset_y ≤ kv.2.yoffset) ∧
    (f.min_offset_y = 100000 ∨
      ∃ kv ∈ bm.chars, f.min_offset_y = kv.2.yoffset) := by
  obtain ⟨-, -, hf⟩ := loadWithInfo_ok_inv h
  subst hf
  dsimp only
  rw [min_foldl_fst]
  exact ⟨yoffMin_le_init bm.chars 100000,
    fun kv hkv => yoffMin_le_mem bm.chars 100000 kv hkv,
    yoffMin_eq_init_or_mem bm.chars 100000⟩

/-- C3 witness: the characterization at the concrete load of `bmC3`. -/
theorem min_offset_y_characterization_witness :
    (fontOfResult (loadWithInfo bmC3 infoC3)).min_offset_y ≤ 100000 ∧
    (∀ kv ∈ bmC3.chars,
      (fontOfResult (loadWithInfo bmC3 infoC3)).min_offset_y ≤
        kv.2.yoffset) ∧
    ((fontOfResult (loadWithInfo bmC3 infoC3)).min_offset_y = 100000 ∨
      ∃ kv ∈ bmC3.chars,
        (fontOfResult (loadWithInfo bmC3 infoC3)).min_offset_y =
          kv.2.yoffset) :=
  min_offset_y_characterization bmC3 infoC3 _ rfl

/-- C4: loading through a file path and loading the same description text
plus atlas bytes directly yield identical Font values: whenever the
description file holds `contents`, `contents` parses successfully, and the
resolved atlas path holds `bytes`, `Font::load` equals `Font::load_raw` on
`contents` and `bytes` — both funnel through the same decode-and-normalize
routine and the only differing intermediate field (the image path) does not
enter the built Font. -/
theorem load_eq_load_raw
    (parse : String → Except String BMFontData)
    (resolve : String → String → String)
    (decode : List Nat → Except String PngInfo)
    (fsText : String → Option String) (fsBin : String → Option (List Nat))
    (fnt_path contents : String) (bytes : List Nat) (d : BMFontData)
    (hText : fsText fnt_path = some contents)
    (hParse : parse contents = Except.ok d)
    (hBin : fsBin (resolve fnt_path d.image_name) = some bytes) :
    Font.load parse resolve decode fsText fsBin fnt_path =
      Font.load_raw parse decode contents bytes := by
  unfold Font.load Font.load_raw bmfontFromPath bmfontFromLoaded
  rw [hText]
  dsimp only
  rw [hParse]
  dsimp only
  rw [hBin]
  unfold loadWithDecode
  cases hdec : decode bytes with
  | error e => simp only [hdec]
  | ok info => simp only [hdec]; rfl

/-- C4 witness: the path/raw equivalence at concrete parser, decoder and
file-system instantiations. -/
theorem load_eq_load_raw_witness :
    Font.load parseW resolveW decodeW fsTextW fsBinW "fonts/iosevka.sfl" =
      Font.load_raw parseW decodeW "desc" [] :=
  load_eq_load_raw parseW resolveW decodeW fsTextW fsBinW "fonts/iosevka.sfl"
    "desc" []
    { font_name := "font"
      image_name := "image.png"
      line_height := 10
      size := 8
      chars := [] }
    rfl rfl rfl

/-- C5 counterexample: a successfully loaded font whose only glyph's atlas
rectangle lies outside the atlas has `uv_max_x = 4 > 1` — the loader
performs no bounds validation, contradicting the claim that every loaded
glyph's UVs lie within [0,1]. -/
theorem uv_out_of_range_cex :
    Except.map Font.characters (loadWithInfo bmC5 infoC5) = Except.ok
      [(97, { id := 97
              x1 := 2
              x2 := 4
              y1 := 0
              y2 := (1 : ℚ)/5
              width := 10
              height := 1
              x_off := 0
              y_off := 0 })] ∧
    ¬ ((4 : ℚ) ≤ 1) := by
  constructor
  · norm_num [loadWithInfo, bmC5, infoC5, loadStep, charDataOf, insertAssoc,
      Except.map, Prod.ext_iff, CharacterData.mk.injEq]
  · norm_num

/-- C5 (amended): for every successfully loaded font whose glyph records all
lie inside the atlas (nonnegative position and size, right/bottom edges
within the atlas dimensions, positive atlas dimensions), every glyph's UVs
satisfy `uv_min ≤ uv_max` on both axes and all four coordinates lie in
[0,1]. -/
theorem uv_bounds_of_glyphs_in_atlas (bm : BMFont) (info : PngInfo) (f : Font)
    (h : loadWithInfo bm info = Except.ok f)
    (hw : 0 < info.width) (hh : 0 < info.height)
    (hbounds : ∀ kv ∈ bm.chars,
      0 ≤ kv.2.x ∧ 0 ≤ kv.2.y ∧ 0 ≤ kv.2.width ∧ 0 ≤ kv.2.height ∧
      kv.2.x + kv.2.width ≤ (info.width : Int) ∧
      kv.2.y + kv.2.height ≤ (info.height : Int)) :
    ∀ kd ∈ f.characters,
      kd.2.x1 ≤ kd.2.x2 ∧ kd.2.y1 ≤ kd.2.y2 ∧
      0 ≤ kd.2.x1 ∧ kd.2.x2 ≤ 1 ∧ 0 ≤ kd.2.y1 ∧ kd.2.y2 ≤ 1 := by
  obtain ⟨-, -, hf⟩ := loadWithInfo_ok_inv h
  subst hf
  intro kd hkd
  obtain ⟨k, d⟩ := kd
  rcases characters_foldl_mem bm.chars _ k d hkd with h' | h'
  · simp at h'
  · obtain ⟨kv, hkv, hk, hd⟩ := h'
    obtain ⟨hx, hy, hwid, hhei, hxw, hyh⟩ := hbounds kv hkv
    subst hd
    have hwQ : (0 : ℚ) < (info.width : ℚ) := by exact_mod_cast hw
    have hhQ : (0 : ℚ) < (info.height : ℚ) := by exact_mod_cast hh
    have hxQ : (0 : ℚ) ≤ (kv.2.x : ℚ) := by exact_mod_cast hx
    have hyQ : (0 : ℚ) ≤ (kv.2.y : ℚ) := by exact_mod_cast hy
    have hwidQ : (0 : ℚ) ≤ (kv.2.width : ℚ) := by exact_mod_cast hwid
    have hheiQ : (0 : ℚ) ≤ (kv.2.height : ℚ) := by exact_mod_cast hhei
    have hxwQ : (kv.2.x : ℚ) + (kv.2.width : ℚ) ≤ (info.width : ℚ) := by
      exact_mod_cast hxw
    have hyhQ : (kv.2.y : ℚ) + (kv.2.height : ℚ) ≤ (info.height : ℚ) := by
      exact_mod_cast hyh
    dsimp only [charDataOf]
    refine ⟨?_, ?_, ?_, ?_, ?_, ?_⟩
    · exact (div_le_div_iff_of_pos_right hwQ).mpr (by linarith)
    · exact (div_le_div_iff_of_pos_right hhQ).mpr (by linarith)
    · exact div_nonneg hxQ hwQ.le
    · exact (div_le_one hwQ).mpr (by linarith)
    · exact div_nonneg hyQ hhQ.le
    · exact (div_le_one hhQ).mpr (by linarith)

/-- C5 witness: the in-bounds UV property at the concrete load of
`bmAlias` in a 2x2 atlas, instantiated at its single glyph. -/
theorem uv_bounds_of_glyphs_in_atlas_witness :
    (charDataOf (infoAlias.width : ℚ) (infoAlias.height : ℚ) aliasCharW).x1 ≤
      (charDataOf (infoAlias.width : ℚ) (infoAlias.height : ℚ)
        aliasCharW).x2 ∧
    (charDataOf (infoAlias.width : ℚ) (infoAlias.height : ℚ) aliasCharW).y1 ≤
      (charDataOf (infoAlias.width : ℚ) (infoAlias.height : ℚ)
        aliasCharW).y2 ∧
    0 ≤ (charDataOf (infoAlias.width : ℚ) (infoAlias.height : ℚ)
      aliasCharW).x1 ∧
    (charDataOf (infoAlias.width : ℚ) (infoAlias.height : ℚ)
      aliasCharW).x2 ≤ 1 ∧
    0 ≤ (charDataOf (infoAlias.width : ℚ) (infoAlias.height : ℚ)
      aliasCharW).y1 ∧
    (charDataOf (infoAlias.width : ℚ) (infoAlias.height : ℚ)
      aliasCharW).y2 ≤ 1 :=
  uv_bounds_of_glyphs_in_atlas bmAlias infoAlias fontAliasLoaded rfl
    (by decide) (by decide) (by decide)
    (353 % 256,
      charDataOf (infoAlias.width : ℚ) (infoAlias.height : ℚ) aliasCharW)
    (List.mem_singleton.mpr rfl)

/-- C6 counterexample: at exactly one elapsed second (update at time
1000000000 ns on a counter checkpointed at 0), the tally is not committed:
the counter keeps tally 1, checkpoint 0 and fps 0, because the source
commits only when strictly more than one second has elapsed — contradicting
the claim's "once at least one real-time second has elapsed". -/
theorem frame_counter_exact_second_cex :
    (FrameCounter.new 0).update 1000000000 = some
      { frames := 1
        last_check := 0
        fps := 0 } ∧
    FrameCounter.get_fps
      { frames := 1
        last_check := 0
        fps := 0 } = 0 :=
  ⟨rfl, rfl⟩

/-- C6 (amended): the frame counter reports fps 0 at construction; an update
with at most one second elapsed since the checkpoint only increments the
tally (fps and checkpoint unchanged); an update with strictly more than one
second elapsed commits the incremented tally as fps, resets the tally and
advances the checkpoint to now; hence any number of updates within one
second of construction leaves fps at 0 with the tally counting them. -/
theorem frame_counter_contract :
    (∀ now : Nat, (FrameCounter.new now).get_fps = 0) ∧
    (∀ (c : FrameCounter) (now : Nat),
      c.last_check ≤ now → now - c.last_check ≤ 1000000000 →
      c.update now = some
        { frames := c.frames + 1
          last_check := c.last_check
          fps := c.fps }) ∧
    (∀ (c : FrameCounter) (now : Nat), 1000000000 < now - c.last_check →
      c.update now = some
        { frames := 0
          last_check := now
          fps := c.frames + 1 }) ∧
    (∀ (t0 : Nat) (ts : List Nat),
      (∀ t ∈ ts, t0 ≤ t ∧ t - t0 ≤ 1000000000) →
      (FrameCounter.new t0).updates ts = some
        { frames := ts.length
          last_check := t0
          fps := 0 }) := by
  refine ⟨fun now => rfl, fun c now h1 h2 => update_within h1 h2,
    fun c now h => update_commit h, ?_⟩
  intro t0 ts h
  have := updates_within ts (FrameCounter.new t0) h
  simpa [FrameCounter.new] using this

/-- C6 witness: three updates within the first second leave fps at 0 with
tally 3; a fourth update past the one-second boundary commits fps 4. -/
theorem frame_counter_contract_witness :
    (FrameCounter.new 0).updates [100, 200, 300] = some
      { frames := 3
        last_check := 0
        fps := 0 } ∧
    FrameCounter.update
      { frames := 3
        last_check := 0
        fps := 0 } 1500000000 = some
      { frames := 0
        last_check := 1500000000
        fps := 4 } :=
  ⟨frame_counter_contract.2.2.2 0 [100, 200, 300] (by decide),
   frame_counter_contract.2.2.1
     { frames := 3
       last_check := 0
       fps := 0 } 1500000000 (by decide)⟩

/-- C7: the running state is a one-way transition: `close` always moves to
not-running; a second `close` on an already closed terminal changes nothing;
no modelled operation (close, refresh, set_debug, draw, draw_multiple) ever
brings a closed terminal back to running; and every `refresh` on a closed
terminal reports continue == false. -/
theorem running_monotone_close_terminal :
    (∀ t : Terminal, t.close.running = false) ∧
    (∀ t : Terminal, t.running = false → t.close = t) ∧
    (∀ (t : Terminal) (op : TerminalOp) (t' : Terminal),
      t.step op = some t' → t'.running = true → t.running = true) ∧
    (∀ (t : Terminal) (now : Nat) (events : List WindowEvent)
      (t' : Terminal) (b : Bool) (calls : List RenderCall),
      t.running = false → t.refresh now events = some (t', b, calls) →
      b = false) := by
  refine ⟨fun t => rfl, ?_, ?_, ?_⟩
  · intro t h
    cases t
    dsimp only at h
    subst h
    rfl
  · intro t op t' hstep hrun
    cases op with
    | close =>
      simp only [Terminal.step, Option.some.injEq] at hstep
      subst hstep
      simp [Terminal.close] at hrun
    | refresh now events =>
      simp only [Terminal.step] at hstep
      cases hr : t.refresh now events with
      | none => rw [hr] at hstep; simp at hstep
      | some r =>
        obtain ⟨t1, b1, calls1⟩ := r
        rw [hr] at hstep
        simp only [Option.map_some', Option.some.injEq] at hstep
        subst hstep
        rw [← (refresh_inv hr).1]
        exact hrun
    | setDebug b =>
      simp only [Terminal.step, Option.some.injEq] at hstep
      subst hstep
      rw [← set_debug_running t b]
      exact hrun
    | draw now tb =>
      simp only [Terminal.step] at hstep
      cases hr : t.draw now tb with
      | none => rw [hr] at hstep; simp at hstep
      | some r =>
        obtain ⟨t1, calls1⟩ := r
        rw [hr] at hstep
        simp only [Option.map_some', Option.some.injEq] at hstep
        subst hstep
        rw [← draw_running hr]
        exact hrun
    | drawMultiple now tbs =>
      simp only [Terminal.step] at hstep
      cases hr : t.draw_multiple now tbs with
      | none => rw [hr] at hstep; simp at hstep
      | some r =>
        obtain ⟨t1, calls1⟩ := r
        rw [hr] at hstep
        simp only [Option.map_some', Option.some.injEq] at hstep
        subst hstep
        rw [← drawMultipleGo_running tbs t [RenderCall.clear] t1 calls1 hr]
        exact hrun
  · intro t now events t' b calls hr h
    exact (refresh_inv h).2 hr

/-- C7 witness: the one-way transition at a concrete headless terminal: a
second close is the identity; a no-op step preserves running; refresh after
close reports continue == false. -/
theorem running_monotone_close_terminal_witness :
    ((Terminal.newHeadless 0 true).close.close =
      (Terminal.newHeadless 0 true).close) ∧
    (Terminal.newHeadless 0 true).running = true ∧
    (false : Bool) = false :=
  ⟨running_monotone_close_terminal.2.1 (Terminal.newHeadless 0 true).close
      rfl,
   running_monotone_close_terminal.2.2.1 (Terminal.newHeadless 0 true)
      (TerminalOp.setDebug true) (Terminal.newHeadless 0 true) rfl rfl,
   running_monotone_close_terminal.2.2.2 (Terminal.newHeadless 0 true).close
      5 [] _ false [] rfl rfl⟩

/-- C8: the cached projection matrix is always the one computed from the
last-set (width, height, aspect ratio) triple — after any sequence of
resize and aspect-ratio operations the consistency invariant holds, and two
states reached by any operation histories ending in the same triple expose
the same matrix, so no stale matrix is ever readable. -/
theorem proj_matrix_depends_only_on_triple
    (s₁ s₂ : DisplayState) (ops₁ ops₂ : List DisplayOp)
    (h₁ : s₁.consistent) (h₂ : s₂.consistent)
    (hw : (s₁.applyOps ops₁).width = (s₂.applyOps ops₂).width)
    (hh : (s₁.applyOps ops₁).height = (s₂.applyOps ops₂).height)
    (hr : (s₁.applyOps ops₁).aspect_ratio = (s₂.applyOps ops₂).aspect_ratio) :
    (s₁.applyOps ops₁).consistent ∧
    (s₁.applyOps ops₁).proj_matrix = (s₂.applyOps ops₂).proj_matrix := by
  have c₁ := applyOps_consistent ops₁ s₁ h₁
  have c₂ := applyOps_consistent ops₂ s₂ h₂
  refine ⟨c₁, ?_⟩
  unfold DisplayState.consistent at c₁ c₂
  rw [c₁, c₂, hw, hh, hr]

/-- C8 witness: resize-then-retarget and retarget-then-resize ending in the
same (800, 600, 2) triple yield the same projection matrix. -/
theorem proj_matrix_depends_only_on_triple_witness :
    DisplayState.consistent ((DisplayState.new 1280 720).applyOps
      [DisplayOp.setWindowSize 800 600, DisplayOp.setAspectRatio 2]) ∧
    ((DisplayState.new 1280 720).applyOps
      [DisplayOp.setWindowSize 800 600, DisplayOp.setAspectRatio 2]).proj_matrix =
    ((DisplayState.new 1280 720).applyOps
      [DisplayOp.setAspectRatio 2, DisplayOp.setWindowSize 800 600]).proj_matrix :=
  proj_matrix_depends_only_on_triple (DisplayState.new 1280 720)
    (DisplayState.new 1280 720)
    [DisplayOp.setWindowSize 800 600, DisplayOp.setAspectRatio 2]
    [DisplayOp.setAspectRatio 2, DisplayOp.setWindowSize 800 600]
    rfl rfl rfl rfl rfl

/-- C9: font loading fails hard with no Font value whenever the decoded
atlas is not RGBA (rejected before any conversion) or the decoded pixel
buffer length differs from width*height*4; a Font is returned only when
both checks pass. -/
theorem load_rejects_bad_atlas (bm : BMFont) (info : PngInfo) :
    (info.color_type ≠ ColorType.RGBA →
      loadWithInfo bm info = Except.error LoadError.colorTypeNotRGBA) ∧
    (info.color_type = ColorType.RGBA →
      info.buffer.length ≠ info.width * info.height * 4 →
      loadWithInfo bm info = Except.error LoadError.imageDeformed) ∧
    (∀ f : Font, loadWithInfo bm info = Except.ok f →
      info.color_type = ColorType.RGBA ∧
      info.buffer.length = info.width * info.height * 4) := by
  refine ⟨?_, ?_, ?_⟩
  · intro h
    simp [loadWithInfo, h]
  · intro h1 h2
    simp [loadWithInfo, h1, h2]
  · intro f h
    have h' := loadWithInfo_ok_inv h
    exact ⟨h'.1, h'.2.1⟩

/-- C9 witness: a non-RGBA atlas is rejected with the color-format failure,
an RGBA atlas with a truncated buffer is rejected as deformed, and the
concrete successful load of `bmC3` passes both checks. -/
theorem load_rejects_bad_atlas_witness :
    loadWithInfo bmC3 infoBadColor =
      Except.error LoadError.colorTypeNotRGBA ∧
    loadWithInfo bmC3 infoBadLen =
      Except.error LoadError.imageDeformed ∧
    (infoC3.color_type = ColorType.RGBA ∧
      infoC3.buffer.length = infoC3.width * infoC3.height * 4) :=
  ⟨(load_rejects_bad_atlas bmC3 infoBadColor).1 (by decide),
   (load_rejects_bad_atlas bmC3 infoBadLen).2.1 rfl (by decide),
   (load_rejects_bad_atlas bmC3 infoC3).2.2
     (fontOfResult (loadWithInfo bmC3 infoC3)) rfl⟩

/-- C10: `get_character` looks the glyph table up by the char's code point
truncated to a byte (mod 256): it returns ok exactly the entry stored under
the truncated byte and returns the character-not-found error exactly when no
entry exists for that byte; concretely, the loaded font whose single glyph
is keyed 353 serves that glyph both for the char with code 353 and for 'a'
(code 97), two distinct chars sharing the low byte. -/
theorem get_character_truncates_to_byte :
    (∀ (f : Font) (c : Char) (d : CharacterData),
      f.get_character c = Except.ok d ↔
        lookupAssoc (c.toNat % 256) f.characters = some d) ∧
    (∀ (f : Font) (c : Char),
      f.get_character c =
          Except.error ("Character not found: " ++ toString (c.toNat % 256))
        ↔ lookupAssoc (c.toNat % 256) f.characters = none) ∧
    Char.ofNat 353 ≠ 'a' ∧
    (Char.ofNat 353).toNat % 256 = ('a').toNat % 256 ∧
    fontAliasLoaded.get_character (Char.ofNat 353) =
      fontAliasLoaded.get_character 'a' ∧
    Except.map (fun d => d.id) (fontAliasLoaded.get_character 'a') =
      Except.ok (353 : Int) := by
  refine ⟨?_, ?_, by decide, by decide, rfl, rfl⟩
  · intro f c d
    unfold Font.get_character
    cases h : lookupAssoc (c.toNat % 256) f.characters <;> simp [h]
  · intro f c
    unfold Font.get_character
    cases h : lookupAssoc (c.toNat % 256) f.characters <;> simp [h]

/-- C2 witness: the amended aspect-ratio contract at a concrete viewport
state and ratio. -/
theorem set_aspect_ratio_updates_and_viewport_effect_witness :
    ((DisplayState.new 1280 720).set_aspect_ratio ((4 : ℚ)/3)).1.aspect_ratio
      = (4 : ℚ)/3 ∧
    ((DisplayState.new 1280 720).set_aspect_ratio ((4 : ℚ)/3)).1.width =
      (DisplayState.new 1280 720).width ∧
    ((DisplayState.new 1280 720).set_aspect_ratio ((4 : ℚ)/3)).1.height =
      (DisplayState.new 1280 720).height ∧
    ((DisplayState.new 1280 720).set_aspect_ratio ((4 : ℚ)/3)).1.proj_matrix
      = create_proj_matrix (((DisplayState.new 1280 720).width : ℚ),
          ((DisplayState.new 1280 720).height : ℚ)) ((4 : ℚ)/3) ∧
    ((DisplayState.new 1280 720).set_aspect_ratio ((4 : ℚ)/3)).2 =
      [RenderCall.updateViewport (DisplayState.new 1280 720).width
        (DisplayState.new 1280 720).height] :=
  set_aspect_ratio_updates_and_viewport_effect (DisplayState.new 1280 720)
    ((4 : ℚ)/3)

/-- C10 witness: the byte-truncation lookup at the concrete aliased font:
the char with code 353 and the char with code 97 are distinct but receive
the same glyph. -/
theorem get_character_truncates_to_byte_witness :
    Char.ofNat 353 ≠ 'a' ∧
    fontAliasLoaded.get_character (Char.ofNat 353) =
      fontAliasLoaded.get_character 'a' :=
  ⟨get_character_truncates_to_byte.2.2.1,
   get_character_truncates_to_byte.2.2.2.2.1⟩

end Glerminal
